import Mathlib

/-!
Verification development for the immigration-pathways agent server
(`cmd/server/main.go`).  The task lifecycle (`ProcessTask`), the task store,
the query parser (`parseUserQuery`) and the JSON-RPC dispatch layer
(`HandlePlanner` and its handlers) are embedded shallowly below.

Modelling conventions:
  * Go strings are Lean `String`s; byte indexing in the budget scanner is
    modelled by `List Char` indexing (exact for the ASCII inputs involved).
  * `time.Now()` is modelled by a strictly increasing `Nat` tick supplied to
    `ProcessTask`; RFC3339 rendering is dropped (only ordering matters).
  * `uuid.New().String()` values are supplied through the environment
    (`Env.freshTaskId`, `Env.msgId`, `Env.artId`).
  * Go `map` iteration order is unspecified; the three keyword tables of
    `parseUserQuery` are therefore passed as explicit association lists whose
    canonical contents are `professions`, `countries`, `origins`; theorems
    quantify over (or exhibit) permutations of those lists.
  * The external Gemini call `GetMigrationPathways` is an opaque collaborator
    `Env.gen : UserProfile → Except String String`.
  * Lock/store interactions of `ProcessTask` and `GetTask` are recorded as an
    explicit event trace (`Event`) mirroring the source order of
    `mu.Lock / map write / mu.Unlock / gemini call / ...`.
-/

namespace MigrationAgent

/-- JSON values, used for the dynamically typed `params` and `id` fields of
the JSON-RPC envelope (`interface{}` in the Go source). -/
inductive Json where
  | null
  | bool (b : Bool)
  | num (n : Int)
  | str (s : String)
  | arr (xs : List Json)
  | obj (fields : List (String × Json))

/-- Modelled from the spec: the `Part` struct is declared in a types file
absent from `src/`; its fields are fixed by the use sites in
`cmd/server/main.go` (`part.Type == "text"`, `Part{Kind: ..., Text: ...}`)
and the spec task JSON shape `parts:[{type:"text", text}]`. -/
structure Part where
  type : String
  kind : String
  text : String
deriving DecidableEq, Repr

/-- Modelled from the spec: the `Message` struct (role + content parts),
fields fixed by the use sites in `cmd/server/main.go`. -/
structure Message where
  role : String
  parts : List Part
deriving DecidableEq, Repr

/-- Modelled from the spec: the `StatusMessage` struct attached to a task
status, fields fixed by the literals built in `ProcessTask`. -/
structure StatusMessage where
  kind : String
  role : String
  parts : List Part
  messageID : String
  taskID : String
deriving DecidableEq, Repr

/-- Modelled from the spec: the `TaskStatus` struct (state, timestamp,
optional message), fields fixed by the literals built in `ProcessTask`. -/
structure TaskStatus where
  state : String
  timestamp : Nat
  message : Option StatusMessage
deriving DecidableEq, Repr

/-- Modelled from the spec: the `Artifact` struct, fields fixed by the
literal built in the success branch of `ProcessTask`. -/
structure Artifact where
  artifactID : String
  name : String
  parts : List Part
deriving DecidableEq, Repr

/-- Modelled from the spec: the `Task` struct, fields fixed by the literals
built in `ProcessTask` and the spec task JSON shape. -/
structure Task where
  id : String
  kind : String
  status : TaskStatus
  artifacts : List Artifact
  createdAt : Nat
  updatedAt : Nat
deriving DecidableEq, Repr

/-- The `UserProfile` struct of `cmd/server/main.go` (budget as `Nat`:
the scanner only ever produces non-negative values). -/
structure UserProfile where
  profession : String
  destination : String
  budget : Nat
  origin : String
deriving DecidableEq, Repr

/-- Modelled from the spec: `TaskSendParams` (params of `tasks/send`),
fields fixed by the use sites `params.ID` / `params.Message`. -/
structure TaskSendParams where
  id : String
  message : Message
deriving DecidableEq, Repr

/-- Modelled from the spec: `TaskIDParams` (params of `tasks/get`). -/
structure TaskIDParams where
  id : String
deriving DecidableEq, Repr

/-- The JSON-RPC request envelope; `params` and `id` stay dynamically typed
(`interface{}` in Go), modelled as `Json`. -/
structure JSONRPCRequest where
  method : String
  params : Json
  id : Json

/-- Outcome of one JSON-RPC call: `sendSuccess` result or `sendError`
response (code, message, optional `data` string, echoed id). -/
inductive RpcOut where
  | success (result : Task) (id : Json)
  | rpcError (code : Int) (message : String) (data : Option String) (id : Json)

/-- The id echoed in a JSON-RPC response (success or error). -/
def RpcOut.respId : RpcOut → Json
  | .success _ i => i
  | .rpcError _ _ _ i => i

/-- Whether the RPC outcome is a success response. -/
def RpcOut.isSuccess : RpcOut → Bool
  | .success _ _ => true
  | .rpcError _ _ _ _ => false

/-- The error code carried by an error response, if any. -/
def RpcOut.errCode : RpcOut → Option Int
  | .success _ _ => none
  | .rpcError c _ _ _ => some c

/-- Lock/store/collaborator events emitted by `ProcessTask` and `GetTask`,
in source order.  `acquireW/releaseW` are `mu.Lock()/mu.Unlock()` (exclusive),
`acquireR/releaseR` are `mu.RLock()/mu.RUnlock()` (shared), `storeWrite` is a
`a.tasks[taskID] = task` map assignment, `storeRead` a map lookup, `genCall`
the blocking `gemini.GetMigrationPathways` network call. -/
inductive Event where
  | acquireW
  | releaseW
  | acquireR
  | releaseR
  | storeWrite (id : String) (t : Task)
  | storeRead (id : String)
  | genCall (p : UserProfile)
deriving DecidableEq, Repr

/-- The in-memory task store `a.tasks`, as an association list; a later
`put` shadows an earlier binding for the same id. -/
abbrev Store := List (String × Task)

/-- Map assignment `a.tasks[taskID] = task` (insert or overwrite). -/
def Store.put (st : Store) (k : String) (t : Task) : Store := (k, t) :: st

/-- Map lookup `a.tasks[taskID]`. -/
def Store.get (st : Store) (k : String) : Option Task :=
  (st.find? (fun kv => kv.1 == k)).map (fun kv => kv.2)

/-- Whether `sub` occurs as a contiguous run in `l`. -/
def listContains (sub : List Char) : List Char → Bool
  | [] => sub.isEmpty
  | c :: rest => sub.isPrefixOf (c :: rest) || listContains sub rest

/-- Go `strings.Contains queryLower key`: `key` occurs as a contiguous
substring. -/
def containsSub (s sub : String) : Bool :=
  listContains sub.data s.data

/-- Go `strings.TrimSpace`: drop leading and trailing whitespace. -/
def goTrimSpace (s : String) : String :=
  String.mk (((s.data.dropWhile Char.isWhitespace).reverse.dropWhile
    Char.isWhitespace).reverse)

/-- Go `strings.ToLower`: lower-case every character (ASCII on the inputs
this development evaluates). -/
def goToLower (s : String) : String :=
  String.mk (s.data.map Char.toLower)

/-- The text-part test `part.Type == "text"` of the extraction loop in
`ProcessTask`. -/
def isTextPart (p : Part) : Bool :=
  p.type == "text"

/-- One keyword-table scan of `parseUserQuery`: iterate the table in the
given order, return the value of the first key contained in the lowered
query, or `""` when none matches (the profile field keeps its zero value). -/
def scanTable (order : List (String × String)) (ql : String) : String :=
  match order.find? (fun kv => containsSub ql kv.1) with
  | some kv => kv.2
  | none => ""

/-- The `professions` table of `parseUserQuery`, in source textual order
(a Go `map`, so the actual iteration order is an arbitrary permutation). -/
def professions : List (String × String) :=
  [("software engineer", "software engineer"), ("data scientist", "data scientist"),
   ("engineer", "engineer"), ("developer", "developer"), ("programmer", "programmer"),
   ("doctor", "doctor"), ("nurse", "nurse"), ("teacher", "teacher"),
   ("accountant", "accountant"), ("designer", "designer"), ("manager", "manager"),
   ("analyst", "analyst"), ("consultant", "consultant")]

/-- The destination `countries` table of `parseUserQuery`, in source order. -/
def countries : List (String × String) :=
  [("canada", "Canada"), ("usa", "USA"), ("united states", "USA"),
   ("america", "USA"), ("uk", "UK"), ("united kingdom", "UK"),
   ("britain", "UK"), ("germany", "Germany"), ("australia", "Australia"),
   ("france", "France"), ("netherlands", "Netherlands"), ("sweden", "Sweden"),
   ("norway", "Norway"), ("denmark", "Denmark"), ("switzerland", "Switzerland"),
   ("new zealand", "New Zealand"), ("singapore", "Singapore"), ("japan", "Japan"),
   ("south korea", "South Korea"), ("dubai", "UAE"), ("uae", "UAE")]

/-- The `origins` table of `parseUserQuery`, in source order. -/
def origins : List (String × String) :=
  [("nigeria", "Nigeria"), ("ghana", "Ghana"), ("kenya", "Kenya"),
   ("south africa", "South Africa"), ("ethiopia", "Ethiopia"), ("egypt", "Egypt"),
   ("morocco", "Morocco"), ("tanzania", "Tanzania"), ("uganda", "Uganda"),
   ("india", "India"), ("pakistan", "Pakistan"), ("bangladesh", "Bangladesh"),
   ("philippines", "Philippines"), ("china", "China"), ("brazil", "Brazil"),
   ("mexico", "Mexico"), ("argentina", "Argentina")]

/-- The digit-grabbing loop after `$` in `parseUserQuery`: consume digits,
commas and dots, dropping commas, stopping at the first other character. -/
def grabNum : List Char → List Char
  | [] => []
  | c :: rest =>
    if c.isDigit || c == ',' || c == '.' then
      (if c == ',' then grabNum rest else c :: grabNum rest)
    else []

/-- Numeric value of a digit string. -/
def digitsVal (ds : List Char) : Nat :=
  ds.foldl (fun a c => a * 10 + (c.toNat - '0'.toNat)) 0

/-- Go `fmt.Sscanf(numStr, "%d", &budget)`: parse the leading digit run,
failing when there is none. -/
def sscanfNat (num : List Char) : Option Nat :=
  let ds := num.takeWhile Char.isDigit
  if ds.isEmpty then none else some (digitsVal ds)

/-- The budget-extraction block of `parseUserQuery`: find `$`, grab the
following number (commas dropped), check the byte at index
`idx + len(numStr) + 1` for a `k` suffix (×1000), else scan the number;
budget stays `0` when nothing scans. -/
def budgetOf (ql : String) : Nat :=
  let cs := ql.data
  match cs.findIdx? (fun c => c == '$') with
  | none => 0
  | some idx =>
    let numStr := grabNum (cs.drop (idx + 1))
    let kpos := idx + numStr.length + 1
    if kpos < cs.length ∧ cs.getD kpos ' ' = 'k' then
      match sscanfNat numStr with
      | some v => v * 1000
      | none => 0
    else (sscanfNat numStr).getD 0

/-- `parseUserQuery` of `cmd/server/main.go`, parameterised by the iteration
orders of its three Go keyword maps. -/
def parseUserQuery (po co oo : List (String × String)) (query : String) :
    UserProfile :=
  let ql := goToLower query
  { profession := scanTable po ql
    destination := scanTable co ql
    origin := scanTable oo ql
    budget := budgetOf ql }

/-- The query-extraction loop at the top of `ProcessTask`: append
`part.Text ++ " "` for every part with `Type == "text"`, then trim. -/
def extractQuery (m : Message) : String :=
  goTrimSpace (m.parts.foldl
    (fun acc p => if isTextPart p then acc ++ p.text ++ " " else acc) "")

/-- The texts of the text-typed parts of a part list, in order. -/
def textsOf (ps : List Part) : List String :=
  (ps.filter isTextPart).map (fun p => p.text)

/-- The texts of the text-typed parts of a message, in order. -/
def textParts (m : Message) : List String :=
  textsOf m.parts

/-- Concatenation of the given strings, each followed by one space (the
intermediate value the extraction loop reaches just before trimming). -/
def trailJoin (ts : List String) : String :=
  ts.foldl (fun a t => a ++ t ++ " ") ""

/-- Space-joining of a list of strings (the spec's "space-joined"). -/
def spaceJoined : List String → String
  | [] => ""
  | [t] => t
  | t :: ts => t ++ " " ++ spaceJoined ts

/-- Environment of one request: the external Gemini collaborator, the uuid
values drawn during the request, and the iteration orders of the three Go
keyword maps in `parseUserQuery`. -/
structure Env where
  gen : UserProfile → Except String String
  freshTaskId : String
  msgId : String
  artId : String
  profOrder : List (String × String)
  countryOrder : List (String × String)
  originOrder : List (String × String)

/-- Result of one `ProcessTask` execution: the returned task, the returned
error (`some` of the generator's error string on failure), and the emitted
lock/store/collaborator event trace in source order. -/
structure ProcResult where
  task : Task
  err : Option String
  events : List Event

/-- `ProcessTask` of `cmd/server/main.go`: create the task in `working`
state, store it under the write lock, extract the query text, parse the
profile, call Gemini; on error store the task as `failed` with a status
message `Failed to generate pathways: ...` and return the error; on success
store it as `completed` with the text as status message and as the single
artifact `Migration Pathway Recommendation`.  `t0` is the clock at entry;
each later `time.Now()` is a strictly larger tick. -/
def ProcessTask (env : Env) (taskID : String) (message : Message) (t0 : Nat) :
    ProcResult :=
  let task0 : Task :=
    { id := taskID
      kind := "task"
      status := { state := "working", timestamp := t0, message := none }
      artifacts := []
      createdAt := t0 + 1
      updatedAt := t0 + 2 }
  let userQuery := extractQuery message
  let profile :=
    parseUserQuery env.profOrder env.countryOrder env.originOrder userQuery
  match env.gen profile with
  | .error e =>
    let failedTask : Task :=
      { task0 with
        status :=
          { state := "failed"
            timestamp := t0 + 3
            message := some
              { kind := "message"
                role := "agent"
                parts := [{ type := "", kind := "text",
                            text := "Failed to generate pathways: " ++ e }]
                messageID := env.msgId
                taskID := taskID } }
        updatedAt := t0 + 4 }
    { task := failedTask
      err := some e
      events := [.acquireW, .storeWrite taskID task0, .releaseW,
                 .genCall profile,
                 .acquireW, .storeWrite taskID failedTask, .releaseW] }
  | .ok responseText =>
    let doneTask : Task :=
      { task0 with
        status :=
          { state := "completed"
            timestamp := t0 + 3
            message := some
              { kind := "message"
                role := "agent"
                parts := [{ type := "", kind := "text", text := responseText }]
                messageID := env.msgId
                taskID := taskID } }
        artifacts := [{ artifactID := env.artId
                        name := "Migration Pathway Recommendation"
                        parts := [{ type := "", kind := "text",
                                    text := responseText }] }]
        updatedAt := t0 + 4 }
    { task := doneTask
      err := none
      events := [.acquireW, .storeWrite taskID task0, .releaseW,
                 .genCall profile,
                 .acquireW, .storeWrite taskID doneTask, .releaseW] }

/-- `GetTask` of `cmd/server/main.go`: look the id up under the read lock;
unknown ids yield the error `task not found: <id>`. -/
def GetTask (st : Store) (taskID : String) : Except String Task × List Event :=
  match Store.get st taskID with
  | none => (.error ("task not found: " ++ taskID),
             [.acquireR, .storeRead taskID, .releaseR])
  | some t => (.ok t, [.acquireR, .storeRead taskID, .releaseR])

/-- The store writes contained in an event trace, in order. -/
def storeWrites (evs : List Event) : List (String × Task) :=
  evs.filterMap (fun e =>
    match e with
    | .storeWrite k t => some (k, t)
    | _ => none)

/-- Apply the store writes of an event trace to a store, in order. -/
def applyWrites (st : Store) (evs : List Event) : Store :=
  (storeWrites evs).foldl (fun s kv => Store.put s kv.1 kv.2) st

/-- Field lookup in a decoded JSON object. -/
def getField (fs : List (String × Json)) (k : String) : Option Json :=
  (fs.find? (fun kv => kv.1 == k)).map (fun kv => kv.2)

/-- Go `encoding/json` decoding of one JSON value into a string field: a
missing field or JSON `null` leaves the zero value `""`; any non-string
value is a type error. -/
def decodeStringField (fs : List (String × Json)) (k : String) :
    Except String String :=
  match getField fs k with
  | none => .ok ""
  | some (.str s) => .ok s
  | some .null => .ok ""
  | some _ => .error ("cannot unmarshal field " ++ k ++ " into string")

/-- Go `encoding/json` decoding of one JSON value into a `Part`. -/
def decodePart : Json → Except String Part
  | .obj fs => do
    let t ← decodeStringField fs "type"
    let k ← decodeStringField fs "kind"
    let x ← decodeStringField fs "text"
    pure { type := t, kind := k, text := x }
  | .null => .ok { type := "", kind := "", text := "" }
  | _ => .error "cannot unmarshal into Part"

/-- Go `encoding/json` decoding of one JSON value into `[]Part` (missing and
`null` give the zero value `nil`). -/
def decodeParts : Json → Except String (List Part)
  | .arr xs => xs.mapM decodePart
  | .null => .ok []
  | _ => .error "cannot unmarshal into Part list"

/-- Go `encoding/json` decoding of one JSON value into a `Message`. -/
def decodeMessage : Json → Except String Message
  | .obj fs => do
    let r ← decodeStringField fs "role"
    let ps ←
      match getField fs "parts" with
      | none => Except.ok []
      | some j => decodeParts j
    pure { role := r, parts := ps }
  | .null => .ok { role := "", parts := [] }
  | _ => .error "cannot unmarshal into Message"

/-- Go `encoding/json` decoding of the `tasks/send` params into
`TaskSendParams` (both fields optional, zero-valued when absent). -/
def decodeTaskSendParams : Json → Except String TaskSendParams
  | .obj fs => do
    let i ← decodeStringField fs "id"
    let m ←
      match getField fs "message" with
      | none => Except.ok { role := "", parts := [] }
      | some j => decodeMessage j
    pure { id := i, message := m }
  | .null => .ok { id := "", message := { role := "", parts := [] } }
  | _ => .error "cannot unmarshal into TaskSendParams"

/-- The `{message, id}` wrapper shape tried first by `handleMessage`. -/
structure MessageWrapper where
  message : Message
  id : String
deriving DecidableEq, Repr

/-- Go `encoding/json` decoding of the `message/send` params into the
`{message, id}` wrapper struct. -/
def decodeWrapper : Json → Except String MessageWrapper
  | .obj fs => do
    let m ←
      match getField fs "message" with
      | none => Except.ok { role := "", parts := [] }
      | some j => decodeMessage j
    let i ← decodeStringField fs "id"
    pure { message := m, id := i }
  | .null => .ok { message := { role := "", parts := [] }, id := "" }
  | _ => .error "cannot unmarshal into wrapper"

/-- Go `encoding/json` decoding of the `tasks/get` params into
`TaskIDParams`. -/
def decodeTaskIDParams : Json → Except String TaskIDParams
  | .obj fs => do
    let i ← decodeStringField fs "id"
    pure { id := i }
  | .null => .ok { id := "" }
  | _ => .error "cannot unmarshal into TaskIDParams"

/-- `handleTasksSend` of `cmd/server/main.go`: decode the params (invalid
params error on failure), generate a task id when none is supplied, run
`ProcessTask`, and map its error to the RPC error `-32603 Internal error`
(with the error text as `data`) or its task to a success response. -/
def handleTasksSend (env : Env) (st : Store) (t0 : Nat)
    (req : JSONRPCRequest) : RpcOut × Store :=
  match decodeTaskSendParams req.params with
  | .error e => (.rpcError (-32602) "Invalid params" (some e) req.id, st)
  | .ok params =>
    let taskID := if params.id = "" then env.freshTaskId else params.id
    let r := ProcessTask env taskID params.message t0
    let st2 := applyWrites st r.events
    match r.err with
    | some e => (.rpcError (-32603) "Internal error" (some e) req.id, st2)
    | none => (.success r.task req.id, st2)

/-- The bare-message fallback of `handleMessage`: decode the params as a
`Message` itself, require a role or at least one part, process under a
fresh id; otherwise `Invalid params for message`. -/
def handleMessageBare (env : Env) (st : Store) (t0 : Nat)
    (req : JSONRPCRequest) : RpcOut × Store :=
  match decodeMessage req.params with
  | .ok m =>
    if m.role != "" || !m.parts.isEmpty then
      let r := ProcessTask env env.freshTaskId m t0
      let st2 := applyWrites st r.events
      match r.err with
      | some e => (.rpcError (-32603) "Internal error" (some e) req.id, st2)
      | none => (.success r.task req.id, st2)
    else (.rpcError (-32602) "Invalid params for message" none req.id, st)
  | .error _ =>
    (.rpcError (-32602) "Invalid params for message" none req.id, st)

/-- `handleMessage` of `cmd/server/main.go`: first try the `{message, id}`
wrapper shape (accepted when the message has a role or at least one part),
else fall back to parsing the params as a bare `Message`. -/
def handleMessage (env : Env) (st : Store) (t0 : Nat)
    (req : JSONRPCRequest) : RpcOut × Store :=
  match decodeWrapper req.params with
  | .ok w =>
    if w.message.role != "" || !w.message.parts.isEmpty then
      let taskID := if w.id = "" then env.freshTaskId else w.id
      let r := ProcessTask env taskID w.message t0
      let st2 := applyWrites st r.events
      match r.err with
      | some e => (.rpcError (-32603) "Internal error" (some e) req.id, st2)
      | none => (.success r.task req.id, st2)
    else handleMessageBare env st t0 req
  | .error _ => handleMessageBare env st t0 req

/-- `handleTasksGet` of `cmd/server/main.go`: decode the params, look the
task up, and answer `sendError(err, -32602, err.Error(), ...)` for unknown
ids (message and `data` both carry the not-found text) or the stored task as
a success response. -/
def handleTasksGet (_env : Env) (st : Store) (_t0 : Nat)
    (req : JSONRPCRequest) : RpcOut × Store :=
  match decodeTaskIDParams req.params with
  | .error e => (.rpcError (-32602) "Invalid params" (some e) req.id, st)
  | .ok params =>
    match (GetTask st params.id).1 with
    | .error msg => (.rpcError (-32602) msg (some msg) req.id, st)
    | .ok t => (.success t req.id, st)

/-- `HandlePlanner` of `cmd/server/main.go` (one POST request): a body that
fails to decode is answered `-32700 Parse error` echoing the zero-valued
id placeholder (`null`); otherwise the request is routed by method name,
unknown methods getting `-32601 Method not found`. -/
def HandlePlanner (env : Env) (st : Store) (t0 : Nat)
    (body : Option JSONRPCRequest) : RpcOut × Store :=
  match body with
  | none => (.rpcError (-32700) "Parse error" none Json.null, st)
  | some req =>
    match req.method with
    | "tasks/send" => handleTasksSend env st t0 req
    | "tasks/get" => handleTasksGet env st t0 req
    | "message/send" => handleMessage env st t0 req
    | _ => (.rpcError (-32601) "Method not found" none req.id, st)

/-- Lock-discipline checker over an event trace: the trace must decompose
into exclusive sections `acquireW; storeWrite; releaseW` holding exactly one
map write, shared sections `acquireR; storeRead; releaseR` holding exactly
one map read, and `genCall`s strictly outside any lock section. -/
def wellLocked : List Event → Bool
  | [] => true
  | .acquireW :: .storeWrite _ _ :: .releaseW :: rest => wellLocked rest
  | .acquireR :: .storeRead _ :: .releaseR :: rest => wellLocked rest
  | .genCall _ :: rest => wellLocked rest
  | _ => false

/-- The all-empty profile produced by the extractor on an empty query. -/
def emptyProfile : UserProfile :=
  { profession := "", destination := "", budget := 0, origin := "" }

/-- The example query of the spec's testable properties. -/
def q9 : String :=
  "software engineer from Nigeria, want to move to Canada with $5,000"

/-- A permutation of the `professions` table in which the key `engineer`
is iterated before `software engineer` (Go map iteration order is
unspecified, so this order is as possible as the source textual one). -/
def engineerFirst : List (String × String) :=
  ("engineer", "engineer") :: professions.filter (fun kv => kv.1 != "engineer")

/-- Concrete environment whose Gemini collaborator always fails. -/
def envFail : Env :=
  { gen := fun _ => .error "boom"
    freshTaskId := "T-1"
    msgId := "M-1"
    artId := "A-1"
    profOrder := professions
    countryOrder := countries
    originOrder := origins }

/-- Concrete environment whose Gemini collaborator always succeeds. -/
def envOk : Env :=
  { envFail with gen := fun _ => .ok "PATHWAY" }

/-- A one-text-part user message. -/
def msg1 : Message :=
  { role := "user", parts := [{ type := "text", kind := "", text := "hi" }] }

/-- The decoded `tasks/send` params of `reqSend`. -/
def sendParams1 : TaskSendParams := { id := "t1", message := msg1 }

/-- A well-formed `tasks/send` request carrying `msg1` under task id `t1`. -/
def reqSend : JSONRPCRequest :=
  { method := "tasks/send"
    params := .obj [("id", .str "t1"),
      ("message", .obj [("role", .str "user"),
        ("parts", .arr [.obj [("type", .str "text"), ("text", .str "hi")]])])]
    id := .num 1 }

/-- A `tasks/send` request whose params carry no message at all. -/
def reqEmpty : JSONRPCRequest :=
  { method := "tasks/send", params := .obj [], id := .num 2 }

/-- A `message/send` request whose message has neither role nor parts. -/
def reqMsgEmpty : JSONRPCRequest :=
  { method := "message/send"
    params := .obj [("message", .obj [("role", .str ""), ("parts", .arr [])])]
    id := .num 3 }

/-- A `tasks/get` request for an id never stored. -/
def reqGetUnknown : JSONRPCRequest :=
  { method := "tasks/get", params := .obj [("id", .str "zzz")], id := .num 4 }

/-- A message carrying no text-typed part. -/
def msgNonText : Message :=
  { role := "user", parts := [{ type := "image", kind := "", text := "pic" }] }

theorem trailJoin_foldl (ts : List String) (a : String) :
    ts.foldl (fun a t => a ++ t ++ " ") a = a ++ trailJoin ts := by
  induction ts generalizing a with
  | nil => simp [trailJoin, String.append_empty]
  | cons t ts ih =>
    simp only [trailJoin, List.foldl_cons] at *
    rw [ih, ih ("" ++ t ++ " "), String.empty_append]
    simp [String.append_assoc]

theorem trailJoin_cons (t : String) (ts : List String) :
    trailJoin (t :: ts) = t ++ " " ++ trailJoin ts := by
  rw [trailJoin, List.foldl_cons, trailJoin_foldl, String.empty_append]

theorem extract_foldl (ps : List Part) (a : String) :
    ps.foldl (fun acc p => if isTextPart p then acc ++ p.text ++ " "
      else acc) a = a ++ trailJoin (textsOf ps) := by
  induction ps generalizing a with
  | nil => simp [textsOf, trailJoin, String.append_empty]
  | cons p ps ih =>
    rcases h : isTextPart p with _ | _
    · simp [List.foldl_cons, List.filter_cons, h, textsOf, ih]
    · simp only [List.foldl_cons, if_pos h, ih]
      simp [textsOf, List.filter_cons, h, trailJoin_cons, String.append_assoc]

theorem trailJoin_eq_spaceJoined (t : String) (ts : List String) :
    trailJoin (t :: ts) = spaceJoined (t :: ts) ++ " " := by
  induction ts generalizing t with
  | nil => simp [trailJoin_cons, trailJoin, spaceJoined, String.append_empty]
  | cons u us ih =>
    simp [trailJoin_cons, ih u, spaceJoined, String.append_assoc]

theorem dropWhile_rev_append_space (l : List Char) :
    ((l ++ [' ']).dropWhile Char.isWhitespace).reverse.dropWhile
        Char.isWhitespace
      = (l.dropWhile Char.isWhitespace).reverse.dropWhile Char.isWhitespace
    := by
  have hsp : (' ' : Char).isWhitespace = true := rfl
  induction l with
  | nil => rfl
  | cons c l ih =>
    rcases h : c.isWhitespace with _ | _
    · simp [List.dropWhile_cons, h, List.reverse_append, hsp]
    · simpa [List.dropWhile_cons, h] using ih

theorem goTrimSpace_append_space (s : String) :
    goTrimSpace (s ++ " ") = goTrimSpace s := by
  unfold goTrimSpace
  have hd : (s ++ " ").data = s.data ++ [' '] := String.data_append s " "
  rw [hd, dropWhile_rev_append_space]

theorem extractQuery_eq_trim_spaceJoined (m : Message) :
    extractQuery m = goTrimSpace (spaceJoined (textParts m)) := by
  rw [extractQuery, extract_foldl, String.empty_append, textParts]
  cases h : textsOf m.parts with
  | nil => rfl
  | cons t ts => rw [trailJoin_eq_spaceJoined, goTrimSpace_append_space]

theorem data_eq_nil (s : String) (h : s.data = []) : s = "" :=
  String.ext h

theorem containsSub_empty_left (sub : String) (h : sub ≠ "") :
    containsSub "" sub = false := by
  rcases hd : sub.data with _ | ⟨c, cs⟩
  · exact absurd (data_eq_nil sub hd) h
  · have he : ("" : String).data = [] := rfl
    simp [containsSub, listContains, hd, he]

theorem scanTable_empty_query (order : List (String × String))
    (h : ∀ kv ∈ order, kv.1 ≠ "") : scanTable order "" = "" := by
  have hnone : order.find? (fun kv => containsSub "" kv.1) = none := by
    apply List.find?_eq_none.mpr
    intro kv hkv
    simp [containsSub_empty_left kv.1 (h kv hkv)]
  simp [scanTable, hnone]

theorem budgetOf_empty : budgetOf "" = 0 := rfl

theorem parseUserQuery_empty (po co oo : List (String × String))
    (hpo : ∀ kv ∈ po, kv.1 ≠ "") (hco : ∀ kv ∈ co, kv.1 ≠ "")
    (hoo : ∀ kv ∈ oo, kv.1 ≠ "") :
    parseUserQuery po co oo "" = emptyProfile := by
  have hlow : goToLower "" = "" := rfl
  simp [parseUserQuery, hlow, scanTable_empty_query po hpo,
    scanTable_empty_query co hco, scanTable_empty_query oo hoo,
    budgetOf_empty, emptyProfile]

theorem route_tasks_send (env : Env) (st : Store) (t0 : Nat)
    (req : JSONRPCRequest) (hm : req.method = "tasks/send") :
    HandlePlanner env st t0 (some req) = handleTasksSend env st t0 req := by
  unfold HandlePlanner
  split <;> simp_all

theorem route_tasks_get (env : Env) (st : Store) (t0 : Nat)
    (req : JSONRPCRequest) (hm : req.method = "tasks/get") :
    HandlePlanner env st t0 (some req) = handleTasksGet env st t0 req := by
  unfold HandlePlanner
  split <;> simp_all

theorem route_message_send (env : Env) (st : Store) (t0 : Nat)
    (req : JSONRPCRequest) (hm : req.method = "message/send") :
    HandlePlanner env st t0 (some req) = handleMessage env st t0 req := by
  unfold HandlePlanner
  split <;> simp_all

/-- Claim C2: every `ProcessTask` execution performs exactly two task-store
writes — the event trace is literally one exclusive-lock write of the task
in `working` state, then the generator call, then one exclusive-lock write
of the returned terminal task; the first write precedes the generator call
and the second stores a `completed` or `failed` task, in both branches. -/
theorem C2_exactly_two_store_writes (env : Env) (taskID : String)
    (message : Message) (t0 : Nat) :
    (ProcessTask env taskID message t0).events =
      [.acquireW,
       .storeWrite taskID
         { id := taskID, kind := "task",
           status := { state := "working", timestamp := t0, message := none },
           artifacts := [], createdAt := t0 + 1, updatedAt := t0 + 2 },
       .releaseW,
       .genCall (parseUserQuery env.profOrder env.countryOrder env.originOrder
         (extractQuery message)),
       .acquireW,
       .storeWrite taskID (ProcessTask env taskID message t0).task,
       .releaseW] ∧
    ((ProcessTask env taskID message t0).task.status.state = "completed" ∨
     (ProcessTask env taskID message t0).task.status.state = "failed") := by
  rcases hg : env.gen (parseUserQuery env.profOrder env.countryOrder
    env.originOrder (extractQuery message)) with e | r <;>
    simp [ProcessTask, hg]

/-- Claim C3: across one `ProcessTask` execution every stored task keeps the
creation id, the stored state sequence is exactly `working` then the
returned terminal (`completed`/`failed`) state, the terminal write is the
last store operation (nothing mutates the task afterwards), and a stored
task has artifacts only in state `completed`. -/
theorem C3_forward_only_lifecycle (env : Env) (taskID : String)
    (message : Message) (t0 : Nat) :
    (∀ kv ∈ storeWrites (ProcessTask env taskID message t0).events,
        kv.1 = taskID ∧ kv.2.id = taskID) ∧
    (storeWrites (ProcessTask env taskID message t0).events).map
        (fun kv => kv.2.status.state)
      = ["working", (ProcessTask env taskID message t0).task.status.state] ∧
    ((ProcessTask env taskID message t0).task.status.state = "completed" ∨
     (ProcessTask env taskID message t0).task.status.state = "failed") ∧
    (storeWrites (ProcessTask env taskID message t0).events).getLast?
      = some (taskID, (ProcessTask env taskID message t0).task) ∧
    (∀ kv ∈ storeWrites (ProcessTask env taskID message t0).events,
        kv.2.artifacts ≠ [] → kv.2.status.state = "completed") := by
  rcases hg : env.gen (parseUserQuery env.profOrder env.countryOrder
    env.originOrder (extractQuery message)) with e | r <;>
    simp [ProcessTask, hg, storeWrites]

/-- Claim C4: when the generator succeeds with text `txt`, the task returned
by `ProcessTask` (which is also the last task stored) is `completed`, its
status message's single text part is `txt`, it carries exactly one artifact
named `Migration Pathway Recommendation` whose single text part is `txt`,
and `updatedAt` was refreshed past `createdAt`. -/
theorem C4_success_completed_with_artifact (env : Env) (taskID : String)
    (message : Message) (t0 : Nat) (txt : String)
    (h : env.gen (parseUserQuery env.profOrder env.countryOrder
      env.originOrder (extractQuery message)) = .ok txt) :
    (ProcessTask env taskID message t0).task.status.state = "completed" ∧
    ((ProcessTask env taskID message t0).task.status.message.map
        (fun sm => sm.parts))
      = some [{ type := "", kind := "text", text := txt }] ∧
    (ProcessTask env taskID message t0).task.artifacts
      = [{ artifactID := env.artId, name := "Migration Pathway Recommendation",
           parts := [{ type := "", kind := "text", text := txt }] }] ∧
    (ProcessTask env taskID message t0).task.createdAt
      < (ProcessTask env taskID message t0).task.updatedAt ∧
    (storeWrites (ProcessTask env taskID message t0).events).getLast?
      = some (taskID, (ProcessTask env taskID message t0).task) := by
  refine ⟨?_, ?_, ?_, ?_, ?_⟩ <;> simp [ProcessTask, h, storeWrites]

/-- Witness for claim C4 at a concrete successful environment. -/
theorem C4_success_completed_with_artifact_witness :
    envOk.gen (parseUserQuery envOk.profOrder envOk.countryOrder
      envOk.originOrder (extractQuery msg1)) = .ok "PATHWAY" ∧
    (ProcessTask envOk "t1" msg1 0).task.status.state = "completed" ∧
    (ProcessTask envOk "t1" msg1 0).task.artifacts
      = [{ artifactID := "A-1", name := "Migration Pathway Recommendation",
           parts := [{ type := "", kind := "text", text := "PATHWAY" }] }] :=
  ⟨rfl, (C4_success_completed_with_artifact envOk "t1" msg1 0 "PATHWAY" rfl).1,
   (C4_success_completed_with_artifact envOk "t1" msg1 0 "PATHWAY" rfl).2.2.1⟩

/-- Claim C10: lock discipline of the task store — `ProcessTask`'s trace
consists of exclusive-lock sections each holding exactly one O(1) map write,
with the blocking generator call strictly outside any lock section, and
`GetTask`'s trace is one shared-lock section holding exactly one O(1) map
read (so writes use the exclusive lock, reads the shared one, and no
external call happens while the lock is held — the `RWMutex` then makes
writes mutually exclusive with all reads and writes while reads may run
concurrently with reads). -/
theorem C10_lock_held_only_for_map_ops (env : Env) (taskID : String)
    (message : Message) (t0 : Nat) (st : Store) (qid : String) :
    wellLocked (ProcessTask env taskID message t0).events = true ∧
    (GetTask st qid).2 = [.acquireR, .storeRead qid, .releaseR] := by
  constructor
  · rcases hg : env.gen (parseUserQuery env.profOrder env.countryOrder
      env.originOrder (extractQuery message)) with e | r <;>
      simp [ProcessTask, hg, wellLocked]
  · rcases hq : Store.get st qid with _ | t <;> simp [GetTask, hq]

theorem respId_handleTasksSend (env : Env) (st : Store) (t0 : Nat)
    (req : JSONRPCRequest) :
    ((handleTasksSend env st t0 req).1).respId = req.id := by
  unfold handleTasksSend
  split
  · rfl
  · dsimp only
    split <;> rfl

theorem respId_handleMessageBare (env : Env) (st : Store) (t0 : Nat)
    (req : JSONRPCRequest) :
    ((handleMessageBare env st t0 req).1).respId = req.id := by
  unfold handleMessageBare
  split
  · split
    · dsimp only
      split <;> rfl
    · rfl
  · rfl

theorem respId_handleMessage (env : Env) (st : Store) (t0 : Nat)
    (req : JSONRPCRequest) :
    ((handleMessage env st t0 req).1).respId = req.id := by
  unfold handleMessage
  split
  · split
    · dsimp only
      split <;> rfl
    · exact respId_handleMessageBare env st t0 req
  · exact respId_handleMessageBare env st t0 req

theorem respId_handleTasksGet (env : Env) (st : Store) (t0 : Nat)
    (req : JSONRPCRequest) :
    ((handleTasksGet env st t0 req).1).respId = req.id := by
  unfold handleTasksGet
  split
  · rfl
  · split <;> rfl

/-- Claim C5: every JSON-RPC response — success or error — echoes the id of
the request it answers; when the request body failed to decode, the
zero-valued placeholder id (`null`) is echoed instead. -/
theorem C5_response_echoes_request_id (env : Env) (st : Store) (t0 : Nat)
    (body : Option JSONRPCRequest) :
    (HandlePlanner env st t0 body).1.respId
      = (match body with
         | some req => req.id
         | none => Json.null) := by
  cases body with
  | none => rfl
  | some req =>
    have h1 := respId_handleTasksSend env st t0 req
    have h2 := respId_handleTasksGet env st t0 req
    have h3 := respId_handleMessage env st t0 req
    unfold HandlePlanner
    split
    · rename_i heq
      simp at heq
    · rename_i req2 heq
      injection heq with hreq
      subst hreq
      split <;> simp_all [RpcOut.respId]

theorem handleMessage_bare (env : Env) (st : Store) (t0 : Nat)
    (req : JSONRPCRequest)
    (hw : ∀ w, decodeWrapper req.params = .ok w →
      w.message.role = "" ∧ w.message.parts = []) :
    handleMessage env st t0 req = handleMessageBare env st t0 req := by
  unfold handleMessage
  rcases hdw : decodeWrapper req.params with ew | w
  · rfl
  · obtain ⟨hr, hp⟩ := hw w hdw
    simp [hr, hp]

/-- Claim C1 counterexample: with a failing generator, a well-formed
`tasks/send` request is answered by the RPC-level error
`-32603 Internal error` carrying the generator error as `data` — not by a
success response carrying the failed task — even though the task is indeed
persisted in state `failed`. -/
theorem C1_counterexample :
    (HandlePlanner envFail [] 0 (some reqSend)).1
      = .rpcError (-32603) "Internal error" (some "boom") (.num 1) ∧
    ((Store.get (HandlePlanner envFail [] 0 (some reqSend)).2 "t1").map
      (fun t => t.status.state)) = some "failed" :=
  ⟨rfl, rfl⟩

/-- Claim C1 (amended): for every `tasks/send` or `message/send` request
whose generator call fails with `e` — via the `tasks/send` params, the
`{message, id}` wrapper form, or the bare-message form of `message/send` —
the task is persisted in state `failed` with the status message
`Failed to generate pathways: e` summarizing the error, but the RPC
response is the error response `-32603 Internal error` with `e` as `data` —
the generator failure IS surfaced as an RPC-level error, not as a success
response. -/
theorem C1_failed_task_persisted_but_rpc_error :
    (∀ (env : Env) (st : Store) (t0 : Nat) (req : JSONRPCRequest)
        (p : TaskSendParams) (e : String),
      req.method = "tasks/send" →
      decodeTaskSendParams req.params = .ok p →
      env.gen (parseUserQuery env.profOrder env.countryOrder env.originOrder
        (extractQuery p.message)) = .error e →
      (HandlePlanner env st t0 (some req)).1
        = .rpcError (-32603) "Internal error" (some e) req.id ∧
      ((Store.get (HandlePlanner env st t0 (some req)).2
          (if p.id = "" then env.freshTaskId else p.id)).map
        (fun t => (t.status.state,
          t.status.message.map (fun sm => sm.parts.map (fun q => q.text)))))
        = some ("failed", some ["Failed to generate pathways: " ++ e])) ∧
    (∀ (env : Env) (st : Store) (t0 : Nat) (req : JSONRPCRequest)
        (w : MessageWrapper) (e : String),
      req.method = "message/send" →
      decodeWrapper req.params = .ok w →
      (w.message.role != "" || !w.message.parts.isEmpty) = true →
      env.gen (parseUserQuery env.profOrder env.countryOrder env.originOrder
        (extractQuery w.message)) = .error e →
      (HandlePlanner env st t0 (some req)).1
        = .rpcError (-32603) "Internal error" (some e) req.id ∧
      ((Store.get (HandlePlanner env st t0 (some req)).2
          (if w.id = "" then env.freshTaskId else w.id)).map
        (fun t => (t.status.state,
          t.status.message.map (fun sm => sm.parts.map (fun q => q.text)))))
        = some ("failed", some ["Failed to generate pathways: " ++ e])) ∧
    (∀ (env : Env) (st : Store) (t0 : Nat) (req : JSONRPCRequest)
        (m : Message) (e : String),
      req.method = "message/send" →
      (∀ w, decodeWrapper req.params = .ok w →
        w.message.role = "" ∧ w.message.parts = []) →
      decodeMessage req.params = .ok m →
      (m.role != "" || !m.parts.isEmpty) = true →
      env.gen (parseUserQuery env.profOrder env.countryOrder env.originOrder
        (extractQuery m)) = .error e →
      (HandlePlanner env st t0 (some req)).1
        = .rpcError (-32603) "Internal error" (some e) req.id ∧
      ((Store.get (HandlePlanner env st t0 (some req)).2 env.freshTaskId).map
        (fun t => (t.status.state,
          t.status.message.map (fun sm => sm.parts.map (fun q => q.text)))))
        = some ("failed", some ["Failed to generate pathways: " ++ e])) := by
  refine ⟨?_, ?_, ?_⟩
  · intro env st t0 req p e hm hp hg
    rw [route_tasks_send env st t0 req hm]
    unfold handleTasksSend
    rw [hp]
    dsimp only
    simp [ProcessTask, hg, applyWrites, storeWrites, Store.put, Store.get]
  · intro env st t0 req w e hm hw hcond hg
    rw [route_message_send env st t0 req hm]
    unfold handleMessage
    rw [hw]
    dsimp only
    rw [if_pos hcond]
    simp [ProcessTask, hg, applyWrites, storeWrites, Store.put, Store.get]
  · intro env st t0 req m e hm hw hdm hcond hg
    rw [route_message_send env st t0 req hm,
      handleMessage_bare env st t0 req hw]
    unfold handleMessageBare
    rw [hdm]
    dsimp only
    rw [if_pos hcond]
    simp [ProcessTask, hg, applyWrites, storeWrites, Store.put, Store.get]

/-- Witness for the amended claim C1 at a concrete failing environment. -/
theorem C1_failed_task_persisted_but_rpc_error_witness :
    reqSend.method = "tasks/send" ∧
    decodeTaskSendParams reqSend.params = .ok sendParams1 ∧
    envFail.gen (parseUserQuery envFail.profOrder envFail.countryOrder
      envFail.originOrder (extractQuery sendParams1.message)) = .error "boom" ∧
    (HandlePlanner envFail [] 0 (some reqSend)).1
      = .rpcError (-32603) "Internal error" (some "boom") reqSend.id :=
  ⟨rfl, rfl, rfl,
   (C1_failed_task_persisted_but_rpc_error.1 envFail [] 0 reqSend sendParams1
     "boom" rfl rfl rfl).1⟩

/-- Claim C6: a `tasks/get` for an id never stored is answered by the
invalid-params-class error code `-32602` whose message and auxiliary `data`
both carry the underlying `task not found: <id>` text — never a
malformed/partial task; a `tasks/get` for a stored id returns exactly the
stored task as the result. -/
theorem C6_get_unknown_errors_known_returns (env : Env) (st : Store)
    (t0 : Nat) (req : JSONRPCRequest) (pid : String)
    (hm : req.method = "tasks/get")
    (hp : decodeTaskIDParams req.params = .ok { id := pid }) :
    (Store.get st pid = none →
      (HandlePlanner env st t0 (some req)).1
        = .rpcError (-32602) ("task not found: " ++ pid)
            (some ("task not found: " ++ pid)) req.id) ∧
    (∀ t, Store.get st pid = some t →
      (HandlePlanner env st t0 (some req)).1 = .success t req.id) := by
  rw [route_tasks_get env st t0 req hm]
  unfold handleTasksGet
  rw [hp]
  dsimp only
  constructor
  · intro h0
    simp [GetTask, h0]
  · intro t ht
    simp [GetTask, ht]

/-- Witness for claim C6 at an empty store and a concrete request. -/
theorem C6_get_unknown_errors_known_returns_witness :
    reqGetUnknown.method = "tasks/get" ∧
    decodeTaskIDParams reqGetUnknown.params = .ok { id := "zzz" } ∧
    Store.get ([] : Store) "zzz" = none ∧
    (HandlePlanner envOk [] 0 (some reqGetUnknown)).1
      = .rpcError (-32602) ("task not found: " ++ "zzz")
          (some ("task not found: " ++ "zzz")) reqGetUnknown.id :=
  ⟨rfl, rfl, rfl,
   (C6_get_unknown_errors_known_returns envOk [] 0 reqGetUnknown "zzz"
     rfl rfl).1 rfl⟩

/-- Claim C7: the query handed to the extractor is the space-joined, trimmed
concatenation of exactly the text-typed parts of the message in order
(non-text parts silently ignored); a message with zero text parts yields the
empty query, the generator is still invoked — with the all-empty profile —
and the task still ends `completed` or `failed`; a decodable `tasks/send`
request is never answered with an invalid-params error (`-32602`), only
with success or `-32603`. -/
theorem C7_query_is_joined_text_parts (env : Env) (taskID : String)
    (t0 : Nat) (msg : Message)
    (hpo : ∀ kv ∈ env.profOrder, kv.1 ≠ "")
    (hco : ∀ kv ∈ env.countryOrder, kv.1 ≠ "")
    (hoo : ∀ kv ∈ env.originOrder, kv.1 ≠ "") :
    extractQuery msg = goTrimSpace (spaceJoined (textParts msg)) ∧
    (textParts msg = [] →
      extractQuery msg = "" ∧
      Event.genCall emptyProfile ∈ (ProcessTask env taskID msg t0).events ∧
      ((ProcessTask env taskID msg t0).task.status.state = "completed" ∨
       (ProcessTask env taskID msg t0).task.status.state = "failed")) ∧
    (∀ (st : Store) (req : JSONRPCRequest) (p : TaskSendParams),
      req.method = "tasks/send" →
      decodeTaskSendParams req.params = .ok p →
      ((HandlePlanner env st t0 (some req)).1.errCode = none ∨
       (HandlePlanner env st t0 (some req)).1.errCode = some (-32603))) := by
  refine ⟨extractQuery_eq_trim_spaceJoined msg, ?_, ?_⟩
  · intro h0
    have hq : extractQuery msg = "" := by
      rw [extractQuery_eq_trim_spaceJoined, h0]
      rfl
    have hprof : parseUserQuery env.profOrder env.countryOrder env.originOrder
        (extractQuery msg) = emptyProfile := by
      rw [hq]
      exact parseUserQuery_empty env.profOrder env.countryOrder env.originOrder
        hpo hco hoo
    refine ⟨hq, ?_, ?_⟩
    · rcases hg : env.gen emptyProfile with e | r <;>
        simp [ProcessTask, hprof, hg]
    · rcases hg : env.gen emptyProfile with e | r <;>
        simp [ProcessTask, hprof, hg]
  · intro st req p hm hp
    rw [route_tasks_send env st t0 req hm]
    unfold handleTasksSend
    rw [hp]
    dsimp only
    rcases he : (ProcessTask env (if p.id = "" then env.freshTaskId else p.id)
        p.message t0).err with _ | e <;> simp [he, RpcOut.errCode]

/-- Witness for claim C7 at a concrete message with no text part. -/
theorem C7_query_is_joined_text_parts_witness :
    (∀ kv ∈ envOk.profOrder, kv.1 ≠ "") ∧
    textParts msgNonText = [] ∧
    extractQuery msgNonText = "" ∧
    Event.genCall emptyProfile ∈ (ProcessTask envOk "w1" msgNonText 0).events ∧
    ((ProcessTask envOk "w1" msgNonText 0).task.status.state = "completed" ∨
     (ProcessTask envOk "w1" msgNonText 0).task.status.state = "failed") :=
  ⟨by decide, rfl,
   ((C7_query_is_joined_text_parts envOk "w1" 0 msgNonText (by decide)
      (by decide) (by decide)).2.1 rfl).1,
   ((C7_query_is_joined_text_parts envOk "w1" 0 msgNonText (by decide)
      (by decide) (by decide)).2.1 rfl).2.1,
   ((C7_query_is_joined_text_parts envOk "w1" 0 msgNonText (by decide)
      (by decide) (by decide)).2.1 rfl).2.2⟩

/-- Claim C8 counterexample: a `tasks/send` request whose params carry no
message at all is NOT rejected with an invalid-params error — it is routed
to the processor, answered with a success response, and a completed task is
stored under the generated fresh id. -/
theorem C8_counterexample :
    (HandlePlanner envOk [] 0 (some reqEmpty)).1.isSuccess = true ∧
    (Store.get (HandlePlanner envOk [] 0 (some reqEmpty)).2 "T-1").map
      (fun t => t.status.state) = some "completed" :=
  ⟨rfl, rfl⟩

/-- Claim C8 (amended): only `message/send` validates the message shape —
when neither the `{message, id}` wrapper nor the bare message carries a role
or at least one part, it is rejected with `-32602 Invalid params for
message` and routed to no handler; `tasks/send` performs no such validation:
any decodable params are processed (never a `-32602` response) and a task is
stored under the supplied id, or under the freshly generated id when the
params carry none; likewise every processed `message/send` (wrapper form or
bare form) is never answered `-32602` and stores a task under the wrapper's
id when one is supplied and under the freshly generated id otherwise (the
bare form always uses the fresh id). -/
theorem C8_validation_only_in_message_send :
    (∀ (env : Env) (st : Store) (t0 : Nat) (req : JSONRPCRequest),
      req.method = "message/send" →
      (∀ w, decodeWrapper req.params = .ok w →
        w.message.role = "" ∧ w.message.parts = []) →
      (∀ m, decodeMessage req.params = .ok m → m.role = "" ∧ m.parts = []) →
      (HandlePlanner env st t0 (some req)).1
        = .rpcError (-32602) "Invalid params for message" none req.id) ∧
    (∀ (env : Env) (st : Store) (t0 : Nat) (req : JSONRPCRequest)
        (p : TaskSendParams),
      req.method = "tasks/send" →
      decodeTaskSendParams req.params = .ok p →
      (HandlePlanner env st t0 (some req)).1.errCode ≠ some (-32602) ∧
      Store.get (HandlePlanner env st t0 (some req)).2
        (if p.id = "" then env.freshTaskId else p.id) ≠ none) ∧
    (∀ (env : Env) (st : Store) (t0 : Nat) (req : JSONRPCRequest)
        (w : MessageWrapper),
      req.method = "message/send" →
      decodeWrapper req.params = .ok w →
      (w.message.role != "" || !w.message.parts.isEmpty) = true →
      (HandlePlanner env st t0 (some req)).1.errCode ≠ some (-32602) ∧
      Store.get (HandlePlanner env st t0 (some req)).2
        (if w.id = "" then env.freshTaskId else w.id) ≠ none) ∧
    (∀ (env : Env) (st : Store) (t0 : Nat) (req : JSONRPCRequest)
        (m : Message),
      req.method = "message/send" →
      (∀ w, decodeWrapper req.params = .ok w →
        w.message.role = "" ∧ w.message.parts = []) →
      decodeMessage req.params = .ok m →
      (m.role != "" || !m.parts.isEmpty) = true →
      (HandlePlanner env st t0 (some req)).1.errCode ≠ some (-32602) ∧
      Store.get (HandlePlanner env st t0 (some req)).2
        env.freshTaskId ≠ none) := by
  refine ⟨?_, ?_, ?_, ?_⟩
  · intro env st t0 req hm hw hb
    rw [route_message_send env st t0 req hm]
    rcases hdw : decodeWrapper req.params with ew | w
    · rcases hdm : decodeMessage req.params with em | m
      · simp [handleMessage, handleMessageBare, hdw, hdm]
      · obtain ⟨hr, hp⟩ := hb m hdm
        simp [handleMessage, handleMessageBare, hdw, hdm, hr, hp]
    · obtain ⟨hr, hp⟩ := hw w hdw
      rcases hdm : decodeMessage req.params with em | m
      · simp [handleMessage, handleMessageBare, hdw, hdm, hr, hp]
      · obtain ⟨hr2, hp2⟩ := hb m hdm
        simp [handleMessage, handleMessageBare, hdw, hdm, hr, hp, hr2, hp2]
  · intro env st t0 req p hm hp
    rw [route_tasks_send env st t0 req hm]
    unfold handleTasksSend
    rw [hp]
    dsimp only
    rcases hg : env.gen (parseUserQuery env.profOrder env.countryOrder
        env.originOrder (extractQuery p.message)) with e | r <;>
      simp [ProcessTask, hg, applyWrites, storeWrites, Store.put, Store.get,
        RpcOut.errCode]
  · intro env st t0 req w hm hdw hcond
    rw [route_message_send env st t0 req hm]
    unfold handleMessage
    rw [hdw]
    dsimp only
    rw [if_pos hcond]
    rcases hg : env.gen (parseUserQuery env.profOrder env.countryOrder
        env.originOrder (extractQuery w.message)) with e | r <;>
      simp [ProcessTask, hg, applyWrites, storeWrites, Store.put, Store.get,
        RpcOut.errCode]
  · intro env st t0 req m hm hw hdm hcond
    rw [route_message_send env st t0 req hm,
      handleMessage_bare env st t0 req hw]
    unfold handleMessageBare
    rw [hdm]
    dsimp only
    rw [if_pos hcond]
    rcases hg : env.gen (parseUserQuery env.profOrder env.countryOrder
        env.originOrder (extractQuery m)) with e | r <;>
      simp [ProcessTask, hg, applyWrites, storeWrites, Store.put, Store.get,
        RpcOut.errCode]

/-- Witness for the amended claim C8 at a concrete `message/send` request
whose message has neither role nor parts. -/
theorem C8_validation_only_in_message_send_witness :
    reqMsgEmpty.method = "message/send" ∧
    (HandlePlanner envOk [] 0 (some reqMsgEmpty)).1
      = .rpcError (-32602) "Invalid params for message" none reqMsgEmpty.id :=
  ⟨rfl,
   C8_validation_only_in_message_send.1 envOk [] 0 reqMsgEmpty rfl
     (by
       intro w hw
       rw [show decodeWrapper reqMsgEmpty.params
           = Except.ok ({ message := { role := "", parts := [] }, id := "" } :
             MessageWrapper) from rfl] at hw
       injection hw with h
       subst h
       exact ⟨rfl, rfl⟩)
     (by
       intro m hm
       rw [show decodeMessage reqMsgEmpty.params
           = Except.ok ({ role := "", parts := [] } : Message) from rfl] at hm
       injection hm with h
       subst h
       exact ⟨rfl, rfl⟩)⟩

/-- Claim C9: on the query `software engineer from Nigeria, want to move to
Canada with $5,000` the extractor's destination, origin and budget are
`Canada`, `Nigeria` and `5000` as claimed, but the profession depends on the
Go map iteration order, which is unspecified: under the source textual order
it is `software engineer`, while under the equally possible permutation that
iterates the key `engineer` first it is `engineer` — the claimed output is
not guaranteed. -/
theorem C9_profession_depends_on_map_order :
    engineerFirst.Perm professions ∧
    parseUserQuery professions countries origins q9
      = { profession := "software engineer", destination := "Canada",
          budget := 5000, origin := "Nigeria" } ∧
    parseUserQuery engineerFirst countries origins q9
      = { profession := "engineer", destination := "Canada",
          budget := 5000, origin := "Nigeria" } :=
  ⟨by decide, rfl, rfl⟩

end MigrationAgent
